import Mathlib

/-!
Verification of the maneuver-completion classifier in
`modules/planning/scenarios/util/util.cc` (Apollo planning scenarios util).

The surrounding geometry / perception library (curvilinear projection,
reference-point lookup, polygon overlap, Euclidean distance, angle
normalization) is external to this core; it is embedded as abstract data
(function-valued fields and an oracle structure), while every decision made
by the core itself is translated literally from the source.
-/

set_option maxHeartbeats 1000000
set_option linter.unusedVariables false

/-- A 2-d point / vector (`common::math::Vec2d`, external). -/
structure Vec2d where
  x : ℝ
  y : ℝ
deriving Inhabited

/-- A curvilinear point (`common::SLPoint`): station `s` along the reference
path and lateral offset `l`. -/
structure SLPoint where
  s : ℝ
  l : ℝ
deriving Inhabited

/-- An overlap interval on a reference path (`hdmap::PathOverlap`):
the id of the map feature and the station interval it covers. -/
structure PathOverlap where
  object_id : String
  start_s : ℝ
  end_s : ℝ

/-- Modelled from the spec: `ReferenceLineInfo::OverlapType`, whose
declaration is not among the sources here.  The lookup in the source handles
the kinds SIGNAL, STOP_SIGN, PNC_JUNCTION and YIELD_SIGN; the upstream enum
also carries the kinds CLEAR_AREA, CROSSWALK and OBSTACLE, which the lookup
does not handle. -/
inductive OverlapType where
  | CLEAR_AREA
  | CROSSWALK
  | OBSTACLE
  | PNC_JUNCTION
  | SIGNAL
  | STOP_SIGN
  | YIELD_SIGN
deriving DecidableEq

/-- A reference line, as consumed by this core (external service):
a curvilinear projection `xyToSL`, the heading of the reference point at a
given station (`GetReferencePoint(s).ToPathPoint(s).theta()`), and the four
per-kind overlap interval lists of its map path. -/
structure ReferenceLine where
  xyToSL : Vec2d → SLPoint
  refTheta : ℝ → ℝ
  signal_overlaps : List PathOverlap
  stop_sign_overlaps : List PathOverlap
  pnc_junction_overlaps : List PathOverlap
  yield_sign_overlaps : List PathOverlap

instance : Inhabited ReferenceLine :=
  ⟨⟨fun _ => default, fun _ => 0, [], [], [], []⟩⟩

/-- The slice of `ReferenceLineInfo` this core reads: its reference line and
the end station of the ADC's SL boundary (`AdcSlBoundary().end_s()`). -/
structure ReferenceLineInfo where
  reference_line : ReferenceLine
  adc_sl_boundary_end_s : ℝ

instance : Inhabited ReferenceLineInfo := ⟨⟨default, 0⟩⟩

/-- `GetOverlapOnReferenceLine` (util.cc lines 37-79): for each handled
overlap kind, scan that kind's list on the reference line's map path and
return the first interval whose `object_id` equals `overlap_id`; the C++
returns `nullptr` when no branch matches or no interval matches, embedded
here as `none`. -/
def GetOverlapOnReferenceLine (reference_line_info : ReferenceLineInfo)
    (overlap_id : String) (overlap_type : OverlapType) : Option PathOverlap :=
  if overlap_type = OverlapType.SIGNAL then
    (reference_line_info.reference_line.signal_overlaps).find?
      (fun o => o.object_id == overlap_id)
  else if overlap_type = OverlapType.STOP_SIGN then
    (reference_line_info.reference_line.stop_sign_overlaps).find?
      (fun o => o.object_id == overlap_id)
  else if overlap_type = OverlapType.PNC_JUNCTION then
    (reference_line_info.reference_line.pnc_junction_overlaps).find?
      (fun o => o.object_id == overlap_id)
  else if overlap_type = OverlapType.YIELD_SIGN then
    (reference_line_info.reference_line.yield_sign_overlaps).find?
      (fun o => o.object_id == overlap_id)
  else
    none

/-- The position sub-message of the pull-over planning status
(`apollo.common.PointENU`-like): optional `x` and `y` fields, whose proto
getters return the default `0` when unset. -/
structure PullOverPosition where
  x : Option ℝ
  y : Option ℝ

/-- The pull-over planning status held by the planning context
(`planning_status().pull_over()`): feasibility flag, optional target
position and optional target heading. -/
structure PullOverStatusMsg where
  is_feasible : Bool
  position : Option PullOverPosition
  theta : Option ℝ

/-- Proto presence test `has_position()`. -/
def PullOverStatusMsg.has_position (st : PullOverStatusMsg) : Bool :=
  st.position.isSome

/-- Proto presence test `position().has_x()`; a missing sub-message reports
all of its fields unset. -/
def PullOverStatusMsg.position_has_x (st : PullOverStatusMsg) : Bool :=
  match st.position with
  | some p => p.x.isSome
  | none => false

/-- Proto presence test `position().has_y()`. -/
def PullOverStatusMsg.position_has_y (st : PullOverStatusMsg) : Bool :=
  match st.position with
  | some p => p.y.isSome
  | none => false

/-- Proto presence test `has_theta()`. -/
def PullOverStatusMsg.has_theta (st : PullOverStatusMsg) : Bool :=
  st.theta.isSome

/-- Proto getter `position().x()`: the stored value, or the proto default
`0` when unset. -/
def PullOverStatusMsg.position_x (st : PullOverStatusMsg) : ℝ :=
  match st.position with
  | some p => p.x.getD 0
  | none => 0

/-- Proto getter `position().y()`. -/
def PullOverStatusMsg.position_y (st : PullOverStatusMsg) : ℝ :=
  match st.position with
  | some p => p.y.getD 0
  | none => 0

/-- Proto getter `theta()`. -/
def PullOverStatusMsg.theta_val (st : PullOverStatusMsg) : ℝ :=
  st.theta.getD 0

/-- The guard repeated at util.cc lines 88-90, 149-151 and 171-173: the
pull-over status is not set properly when it is infeasible or missing its
position, its position's `x` or `y`, or its heading. -/
def pullOverStatusNotSet (st : PullOverStatusMsg) : Bool :=
  !st.is_feasible || !st.has_position || !st.position_has_x ||
    !st.position_has_y || !st.has_theta

/-- The 5-state pull-over classification result (`PullOverStatus`). -/
inductive PullOverStatus where
  | UNKNOWN
  | APPROACHING
  | PASS_DESTINATION
  | PARK_COMPLETE
  | PARK_FAIL
deriving DecidableEq

/-- Modelled from the spec: the 2-state park-and-go classification result
(`ParkAndGoStatus`, declared in util.h which is not among the sources here);
the spec's data model lists exactly the states Cruising and CruiseComplete. -/
inductive ParkAndGoStatus where
  | CRUISING
  | CRUISE_COMPLETE
deriving DecidableEq

/-- The pull-over scenario tolerance configuration fields this core reads. -/
structure ScenarioPullOverConfig where
  pass_destination_threshold : ℝ
  max_l_error_to_end_point : ℝ
  max_theta_error_to_end_point : ℝ
  max_s_error_to_end_point : ℝ
  max_distance_error_to_end_point : ℝ

/-- The park-and-go scenario configuration fields this core reads. -/
structure ScenarioParkAndGoConfig where
  front_obstacle_buffer : ℝ
  heading_buffer : ℝ

/-- The vehicle-state provider snapshot this core reads: position, heading
and linear velocity. -/
structure VehicleState where
  x : ℝ
  y : ℝ
  heading : ℝ
  linear_velocity : ℝ

/-- The static vehicle parameters this core reads from the vehicle
configuration. -/
structure VehicleParam where
  length : ℝ
  width : ℝ
  back_edge_to_center : ℝ
  max_abs_speed_when_stopped : ℝ

/-- A path point of a planned trajectory (`common::PathPoint`), restricted
to the fields this core reads. -/
structure PathPoint where
  x : ℝ
  y : ℝ
  theta : ℝ

noncomputable section

open Real

/-- Modelled from the spec: `common::math::NormalizeAngle` (common math
library, not among the sources here) maps an angle to the interval
(-pi, pi] by subtracting the appropriate integer multiple of 2*pi. -/
def normalizeAngle (x : ℝ) : ℝ :=
  x - 2 * π * ⌈(x - π) / (2 * π)⌉

/-- Modelled from the spec: `Vec2d::DistanceTo` (external math library) is
the Euclidean distance between two points. -/
def Vec2d.DistanceTo (a b : Vec2d) : ℝ :=
  Real.sqrt ((a.x - b.x) ^ 2 + (a.y - b.y) ^ 2)

/-- `CheckPullOverPositionBySL` (util.cc lines 193-224): project target and
current position onto the reference line, form the station gap
`s_diff = target_s - adc_s`, the absolute lateral gap and the absolute
normalized heading gap, then require `l_diff` and `theta_diff` within their
bounds, and, when `check_s` is set, additionally `0 ≤ s_diff` and `s_diff`
within its bound. -/
def CheckPullOverPositionBySL (reference_line_info : ReferenceLineInfo)
    (scenario_config : ScenarioPullOverConfig) (adc_position : Vec2d)
    (adc_theta : ℝ) (target_position : Vec2d) (target_theta : ℝ)
    (check_s : Bool) : Bool :=
  let reference_line := reference_line_info.reference_line
  let target_sl := reference_line.xyToSL target_position
  let adc_position_sl := reference_line.xyToSL adc_position
  let s_diff := target_sl.s - adc_position_sl.s
  let l_diff := |target_sl.l - adc_position_sl.l|
  let theta_diff := |normalizeAngle (target_theta - adc_theta)|
  let ret := decide (l_diff ≤ scenario_config.max_l_error_to_end_point) &&
    decide (theta_diff ≤ scenario_config.max_theta_error_to_end_point)
  if check_s then
    ret && decide (s_diff ≥ 0) &&
      decide (s_diff ≤ scenario_config.max_s_error_to_end_point)
  else
    ret

/-- `CheckPullOverPositionByDistance` (util.cc lines 226-238): Euclidean
distance and absolute normalized heading gap, each within its bound. -/
def CheckPullOverPositionByDistance (scenario_config : ScenarioPullOverConfig)
    (adc_position : Vec2d) (adc_theta : ℝ) (target_position : Vec2d)
    (target_theta : ℝ) : Bool :=
  let distance_diff := adc_position.DistanceTo target_position
  let theta_diff := |normalizeAngle (target_theta - adc_theta)|
  decide (distance_diff ≤ scenario_config.max_distance_error_to_end_point) &&
    decide (theta_diff ≤ scenario_config.max_theta_error_to_end_point)

/-- The fixed constant `kStartParkCheckRange` of util.cc line 120. -/
def kStartParkCheckRange : ℝ := 3

/-- `CheckADCPullOver` (util.cc lines 84-138).  The process-wide singletons
(planning context, vehicle-state provider, vehicle configuration) are passed
as explicit snapshot arguments. -/
def CheckADCPullOver (pull_over_status : PullOverStatusMsg)
    (vehicle_state : VehicleState) (vehicle_param : VehicleParam)
    (reference_line_info : ReferenceLineInfo)
    (scenario_config : ScenarioPullOverConfig) : PullOverStatus :=
  if pullOverStatusNotSet pull_over_status then
    PullOverStatus.UNKNOWN
  else
    let reference_line := reference_line_info.reference_line
    let pull_over_sl := reference_line.xyToSL
      ⟨pull_over_status.position_x, pull_over_status.position_y⟩
    let adc_front_edge_s := reference_line_info.adc_sl_boundary_end_s
    let distance := adc_front_edge_s - pull_over_sl.s
    if distance ≥ scenario_config.pass_destination_threshold then
      PullOverStatus.PASS_DESTINATION
    else
      let adc_speed := vehicle_state.linear_velocity
      let max_adc_stop_speed := vehicle_param.max_abs_speed_when_stopped
      if adc_speed > max_adc_stop_speed then
        PullOverStatus.APPROACHING
      else if distance ≤ -kStartParkCheckRange then
        PullOverStatus.APPROACHING
      else
        let adc_position : Vec2d := ⟨vehicle_state.x, vehicle_state.y⟩
        let target_position : Vec2d :=
          ⟨pull_over_status.position_x, pull_over_status.position_y⟩
        if CheckPullOverPositionBySL reference_line_info scenario_config
            adc_position vehicle_state.heading target_position
            pull_over_status.theta_val true then
          PullOverStatus.PARK_COMPLETE
        else
          PullOverStatus.PARK_FAIL

/-- `CheckADCPullOverPathPoint` (util.cc lines 143-165): same guard, then
the curvilinear check between the supplied path point and the target with
`check_s = false`. -/
def CheckADCPullOverPathPoint (pull_over_status : PullOverStatusMsg)
    (reference_line_info : ReferenceLineInfo)
    (scenario_config : ScenarioPullOverConfig) (path_point : PathPoint) :
    PullOverStatus :=
  if pullOverStatusNotSet pull_over_status then
    PullOverStatus.UNKNOWN
  else
    let target_position : Vec2d :=
      ⟨pull_over_status.position_x, pull_over_status.position_y⟩
    if CheckPullOverPositionBySL reference_line_info scenario_config
        ⟨path_point.x, path_point.y⟩ path_point.theta target_position
        pull_over_status.theta_val false then
      PullOverStatus.PARK_COMPLETE
    else
      PullOverStatus.PARK_FAIL

/-- `CheckADCPullOverOpenSpace` (util.cc lines 167-191): same guard, then
the Euclidean check between the live vehicle pose and the target. -/
def CheckADCPullOverOpenSpace (pull_over_status : PullOverStatusMsg)
    (vehicle_state : VehicleState)
    (scenario_config : ScenarioPullOverConfig) : PullOverStatus :=
  if pullOverStatusNotSet pull_over_status then
    PullOverStatus.UNKNOWN
  else
    let adc_position : Vec2d := ⟨vehicle_state.x, vehicle_state.y⟩
    let target_position : Vec2d :=
      ⟨pull_over_status.position_x, pull_over_status.position_y⟩
    if CheckPullOverPositionByDistance scenario_config adc_position
        vehicle_state.heading target_position
        pull_over_status.theta_val then
      PullOverStatus.PARK_COMPLETE
    else
      PullOverStatus.PARK_FAIL

/-- `CheckADCParkAndGoCruiseCompleted` (util.cc lines 240-268): project the
vehicle position onto the reference line, fetch the reference heading at the
projected station, and report CRUISE_COMPLETE exactly when the absolute
lateral offset is below the fixed `kLBuffer = 0.5` and the absolute RAW
difference `adc_heading - path_point.theta()` is below the fixed
`kHeadingBuffer = 0.1` (the source applies no angle normalization here). -/
def CheckADCParkAndGoCruiseCompleted (vehicle_state : VehicleState)
    (reference_line_info : ReferenceLineInfo)
    (scenario_config : ScenarioParkAndGoConfig) : ParkAndGoStatus :=
  let kLBuffer : ℝ := 0.5
  let kHeadingBuffer : ℝ := 0.1
  let reference_line := reference_line_info.reference_line
  let adc_position : Vec2d := ⟨vehicle_state.x, vehicle_state.y⟩
  let adc_heading := vehicle_state.heading
  let adc_position_sl := reference_line.xyToSL adc_position
  let path_point_theta := reference_line.refTheta adc_position_sl.s
  if |adc_position_sl.l| < kLBuffer ∧
      |adc_heading - path_point_theta| < kHeadingBuffer then
    ParkAndGoStatus.CRUISE_COMPLETE
  else
    ParkAndGoStatus.CRUISING

/-- A 2-d oriented box (`common::math::Box2d`, external), kept as its
construction data. -/
structure Box2d where
  center : Vec2d
  heading : ℝ
  length : ℝ
  width : ℝ

/-- Modelled from the spec: `Box2d::Shift` (external math library)
translates the box by the given vector. -/
def Box2d.Shift (box : Box2d) (shift_vec : Vec2d) : Box2d :=
  { box with center := ⟨box.center.x + shift_vec.x, box.center.y + shift_vec.y⟩ }

/-- The external polygon library consumed by the obstacle scan, over an
abstract polygon type `P`: conversion of a box to a polygon
(`Polygon2d(Box2d)`) and the polygon overlap test
(`Polygon2d::HasOverlap`). -/
structure GeomOracle (P : Type) where
  boxToPolygon : Box2d → P
  hasOverlap : P → P → Bool

/-- An obstacle, restricted to the field this core reads: its perception
footprint polygon. -/
structure Obstacle (P : Type) where
  perception_polygon : P

/-- The slice of `Frame` this core reads: the obstacle list and the list of
reference line infos (the source takes its `front()`). -/
structure Frame (P : Type) where
  obstacles : List (Obstacle P)
  reference_line_info : List ReferenceLineInfo

/-- `CheckADCSurroundObstacles` (util.cc lines 295-319): build the vehicle
box at the current pose, shift it forward along the heading by
`front_obstacle_buffer + back_edge_to_center`, convert it to a polygon, and
report whether it overlaps any obstacle's perception polygon. -/
def CheckADCSurroundObstacles {P : Type} (geom : GeomOracle P)
    (adc_position : Vec2d) (adc_heading : ℝ) (frame : Frame P)
    (front_obstacle_buffer : ℝ) (vehicle_param : VehicleParam) : Bool :=
  let adc_length := vehicle_param.length
  let adc_width := vehicle_param.width
  let adc_box : Box2d := ⟨adc_position, adc_heading, adc_length, adc_width⟩
  let shift_distance := front_obstacle_buffer + vehicle_param.back_edge_to_center
  let shift_vec : Vec2d :=
    ⟨shift_distance * Real.cos adc_heading, shift_distance * Real.sin adc_heading⟩
  let adc_box2 := adc_box.Shift shift_vec
  let adc_polygon := geom.boxToPolygon adc_box2
  frame.obstacles.any
    (fun obstacle => geom.hasOverlap adc_polygon obstacle.perception_polygon)

/-- `CheckADCHeading` (util.cc lines 325-341): project the position onto the
reference line and test that the absolute normalized difference between the
heading and the reference heading at the projected station is strictly
below the configured bound. -/
def CheckADCHeading (adc_position : Vec2d) (adc_heading : ℝ)
    (reference_line_info : ReferenceLineInfo)
    (heading_diff_to_reference_line : ℝ) : Bool :=
  let reference_line := reference_line_info.reference_line
  let adc_position_sl := reference_line.xyToSL adc_position
  let path_point_theta := reference_line.refTheta adc_position_sl.s
  if |normalizeAngle (adc_heading - path_point_theta)| <
      heading_diff_to_reference_line then
    true
  else
    false

/-- `CheckADCReadyToCruise` (util.cc lines 270-289): true exactly when the
forward obstacle scan finds nothing and the heading is aligned with the
front reference line within the configured buffer. -/
def CheckADCReadyToCruise {P : Type} (geom : GeomOracle P)
    (vehicle_state : VehicleState) (vehicle_param : VehicleParam)
    (frame : Frame P) (scenario_config : ScenarioParkAndGoConfig) : Bool :=
  let adc_position : Vec2d := ⟨vehicle_state.x, vehicle_state.y⟩
  let adc_heading := vehicle_state.heading
  let reference_line_info := frame.reference_line_info.headI
  let is_near_front_obstacle := CheckADCSurroundObstacles geom adc_position
    adc_heading frame scenario_config.front_obstacle_buffer vehicle_param
  let heading_align_w_reference_line := CheckADCHeading adc_position
    adc_heading reference_line_info scenario_config.heading_buffer
  if !is_near_front_obstacle && heading_align_w_reference_line then
    true
  else
    false

/-- The polygon the obstacle scan tests against: the vehicle box at the
given pose, shifted forward along the heading by
`front_obstacle_buffer + back_edge_to_center`, converted to a polygon.
This names the subterm of `CheckADCSurroundObstacles` so that theorems can
speak about the overlap test on it. -/
def adcShiftedPolygon {P : Type} (geom : GeomOracle P) (adc_position : Vec2d)
    (adc_heading : ℝ) (front_obstacle_buffer : ℝ)
    (vehicle_param : VehicleParam) : P :=
  geom.boxToPolygon
    ((Box2d.mk adc_position adc_heading vehicle_param.length
        vehicle_param.width).Shift
      ⟨(front_obstacle_buffer + vehicle_param.back_edge_to_center) *
          Real.cos adc_heading,
        (front_obstacle_buffer + vehicle_param.back_edge_to_center) *
          Real.sin adc_heading⟩)

end

noncomputable section ConcreteInputs

open Real

/-- A reference line whose curvilinear projection reads station from `x`
and lateral offset from `y`, with reference heading `0` everywhere and
empty overlap lists; used as a concrete collaborator in witnesses. -/
def idLine : ReferenceLine where
  xyToSL := fun v => ⟨v.x, v.y⟩
  refTheta := fun _ => 0
  signal_overlaps := []
  stop_sign_overlaps := []
  pnc_junction_overlaps := []
  yield_sign_overlaps := []

/-- `idLine` with the ADC front edge at station 0. -/
def idRli : ReferenceLineInfo := ⟨idLine, 0⟩

/-- `idLine` with the ADC front edge at station 10. -/
def idRli10 : ReferenceLineInfo := ⟨idLine, 10⟩

/-- `idLine` with the ADC front edge at station -4. -/
def idRliNeg : ReferenceLineInfo := ⟨idLine, -4⟩

/-- A vehicle at the origin with heading 0, at rest. -/
def vs0 : VehicleState := ⟨0, 0, 0, 0⟩

/-- A vehicle at the origin with heading 0, moving at 1. -/
def vsFast : VehicleState := ⟨0, 0, 0, 1⟩

/-- A vehicle at the origin with heading `2 * π`, at rest. -/
def vs2pi : VehicleState := ⟨0, 0, 2 * π, 0⟩

/-- Concrete vehicle parameters. -/
def vp1 : VehicleParam := ⟨4, 2, 1, 0.2⟩

/-- Concrete pull-over tolerances. -/
def pullCfg1 : ScenarioPullOverConfig where
  pass_destination_threshold := 5
  max_l_error_to_end_point := 0.5
  max_theta_error_to_end_point := 0.2
  max_s_error_to_end_point := 1
  max_distance_error_to_end_point := 1

/-- Concrete park-and-go configuration. -/
def parkCfg1 : ScenarioParkAndGoConfig where
  front_obstacle_buffer := 1
  heading_buffer := 1

/-- An infeasible pull-over target with all fields populated. -/
def stInfeasible : PullOverStatusMsg where
  is_feasible := false
  position := some ⟨some 0, some 0⟩
  theta := some 0

/-- A feasible, fully populated pull-over target at the origin with
heading 0. -/
def stGood : PullOverStatusMsg where
  is_feasible := true
  position := some ⟨some 0, some 0⟩
  theta := some 0

/-- A feasible, fully populated pull-over target at (0, 1) with
heading 0 : under `idLine` its lateral offset is 1. -/
def stGoodY1 : PullOverStatusMsg where
  is_feasible := true
  position := some ⟨some 0, some 1⟩
  theta := some 0

/-- A trajectory end point at the origin with heading 0. -/
def pp0 : PathPoint := ⟨0, 0, 0⟩

/-- A concrete polygon library over `Bool` polygons: every box converts to
the `false` polygon, and overlap holds exactly when the obstacle polygon is
`true`. -/
def geomB : GeomOracle Bool where
  boxToPolygon := fun _ => false
  hasOverlap := fun _ p => p

/-- A frame containing one obstacle that overlaps everything, in front of
`idRli`. -/
def frameHit : Frame Bool := ⟨[⟨true⟩], [idRli]⟩

/-- The same frame with the obstacle removed. -/
def frameClear : Frame Bool := ⟨[], [idRli]⟩

/-- A reference line whose stop-sign overlap list contains the interval
with id A and whose other overlap lists are empty. -/
def rliStopA : ReferenceLineInfo :=
  ⟨⟨fun v => ⟨v.x, v.y⟩, fun _ => 0, [], [⟨"A", 0, 1⟩], [], []⟩, 0⟩

/-- A reference line all four of whose overlap lists contain the interval
with id A. -/
def rliAllA : ReferenceLineInfo :=
  ⟨⟨fun v => ⟨v.x, v.y⟩, fun _ => 0, [⟨"A", 0, 1⟩], [⟨"A", 0, 1⟩],
    [⟨"A", 0, 1⟩], [⟨"A", 0, 1⟩]⟩, 0⟩

end ConcreteInputs

section NormalizeAngleLemmas

open Real

theorem normalizeAngle_eq_self {x : ℝ} (h1 : -π < x) (h2 : x ≤ π) :
    normalizeAngle x = x := by
  have hpos : (0 : ℝ) < 2 * π := Real.two_pi_pos
  have hceil : ⌈(x - π) / (2 * π)⌉ = 0 := by
    rw [Int.ceil_eq_zero_iff, Set.mem_Ioc]
    constructor
    · rw [lt_div_iff hpos]
      linarith
    · rw [div_le_iff hpos]
      linarith
  rw [normalizeAngle, hceil]
  push_cast
  ring

theorem normalizeAngle_zero : normalizeAngle 0 = 0 :=
  normalizeAngle_eq_self (by linarith [Real.pi_pos]) (le_of_lt Real.pi_pos)

theorem normalizeAngle_add_two_pi (x : ℝ) :
    normalizeAngle (x + 2 * π) = normalizeAngle x := by
  have hne : (2 * π) ≠ 0 := ne_of_gt Real.two_pi_pos
  have harg : (x + 2 * π - π) / (2 * π) = (x - π) / (2 * π) + 1 := by
    field_simp
    ring
  rw [normalizeAngle, normalizeAngle, harg, Int.ceil_add_one]
  push_cast
  ring

theorem normalizeAngle_sub_two_pi (x : ℝ) :
    normalizeAngle (x - 2 * π) = normalizeAngle x := by
  have h := normalizeAngle_add_two_pi (x - 2 * π)
  simpa using h.symm

end NormalizeAngleLemmas

section HelperLemmas

open Real

theorem checkPullOverPositionBySL_eq_true_iff (rli : ReferenceLineInfo)
    (cfg : ScenarioPullOverConfig) (pos : Vec2d) (θa : ℝ) (tpos : Vec2d)
    (θt : ℝ) (cs : Bool) :
    CheckPullOverPositionBySL rli cfg pos θa tpos θt cs = true ↔
      (|(rli.reference_line.xyToSL tpos).l -
          (rli.reference_line.xyToSL pos).l| ≤
            cfg.max_l_error_to_end_point ∧
        |normalizeAngle (θt - θa)| ≤ cfg.max_theta_error_to_end_point ∧
        (cs = true →
          0 ≤ (rli.reference_line.xyToSL tpos).s -
              (rli.reference_line.xyToSL pos).s ∧
            (rli.reference_line.xyToSL tpos).s -
                (rli.reference_line.xyToSL pos).s ≤
              cfg.max_s_error_to_end_point)) := by
  cases cs <;>
    simp [CheckPullOverPositionBySL, ge_iff_le, and_assoc]

theorem checkADCHeading_eq_true_iff (pos : Vec2d) (h : ℝ)
    (rli : ReferenceLineInfo) (b : ℝ) :
    CheckADCHeading pos h rli b = true ↔
      |normalizeAngle
          (h - rli.reference_line.refTheta
            ((rli.reference_line.xyToSL pos).s))| < b := by
  simp [CheckADCHeading]

theorem checkADCSurroundObstacles_eq_any {P : Type} (geom : GeomOracle P)
    (pos : Vec2d) (h : ℝ) (frame : Frame P) (buf : ℝ)
    (vp : VehicleParam) :
    CheckADCSurroundObstacles geom pos h frame buf vp =
      frame.obstacles.any
        (fun ob =>
          geom.hasOverlap (adcShiftedPolygon geom pos h buf vp)
            ob.perception_polygon) := rfl

theorem parkAndGoCruiseCompleted_eq_complete_iff (vs : VehicleState)
    (rli : ReferenceLineInfo) (pcfg : ScenarioParkAndGoConfig) :
    CheckADCParkAndGoCruiseCompleted vs rli pcfg =
        ParkAndGoStatus.CRUISE_COMPLETE ↔
      (|(rli.reference_line.xyToSL ⟨vs.x, vs.y⟩).l| < 0.5 ∧
        |vs.heading -
            rli.reference_line.refTheta
              ((rli.reference_line.xyToSL ⟨vs.x, vs.y⟩).s)| < 0.1) := by
  rw [CheckADCParkAndGoCruiseCompleted]
  split
  · simp_all
  · simp_all

end HelperLemmas

section Claims

open Real

/-- C1 counterexample: the claim includes the park-and-go cruise-completion
classifier among the entry points that return Unknown on a deficient target;
in the code that classifier never consults the pull-over target (its result
type has no Unknown state at all), so on an input whose pull-over target is
marked infeasible it still returns CRUISE_COMPLETE. -/
theorem c1_counterexample :
    stInfeasible.is_feasible = false ∧
    CheckADCParkAndGoCruiseCompleted vs0 idRli parkCfg1 =
      ParkAndGoStatus.CRUISE_COMPLETE := by
  refine ⟨rfl, ?_⟩
  rw [parkAndGoCruiseCompleted_eq_complete_iff]
  simp only [idRli, idLine, vs0]
  norm_num

/-- C1 (amended): whenever the pull-over target is marked infeasible or is
missing its position, its position's x or y, or its heading, each of the
three pull-over entry points (CheckADCPullOver, CheckADCPullOverPathPoint,
CheckADCPullOverOpenSpace) returns UNKNOWN, regardless of all other inputs;
the park-and-go cruise-completion classifier does not consult the pull-over
target and classifies into CRUISING / CRUISE_COMPLETE from the pose alone. -/
theorem c1_pull_over_unknown_when_target_not_set (st : PullOverStatusMsg)
    (h : st.is_feasible = false ∨ st.has_position = false ∨
      st.position_has_x = false ∨ st.position_has_y = false ∨
      st.has_theta = false)
    (vs : VehicleState) (vp : VehicleParam) (rli : ReferenceLineInfo)
    (cfg : ScenarioPullOverConfig) (pp : PathPoint) :
    CheckADCPullOver st vs vp rli cfg = PullOverStatus.UNKNOWN ∧
    CheckADCPullOverPathPoint st rli cfg pp = PullOverStatus.UNKNOWN ∧
    CheckADCPullOverOpenSpace st vs cfg = PullOverStatus.UNKNOWN := by
  have hg : pullOverStatusNotSet st = true := by
    rcases h with h | h | h | h | h <;> simp [pullOverStatusNotSet, h]
  refine ⟨?_, ?_, ?_⟩ <;>
    simp [CheckADCPullOver, CheckADCPullOverPathPoint,
      CheckADCPullOverOpenSpace, hg]

/-- Witness for C1 (amended), at the infeasible target. -/
theorem c1_pull_over_unknown_witness :
    CheckADCPullOver stInfeasible vs0 vp1 idRli pullCfg1 =
        PullOverStatus.UNKNOWN ∧
    CheckADCPullOverPathPoint stInfeasible idRli pullCfg1 pp0 =
        PullOverStatus.UNKNOWN ∧
    CheckADCPullOverOpenSpace stInfeasible vs0 pullCfg1 =
        PullOverStatus.UNKNOWN :=
  c1_pull_over_unknown_when_target_not_set stInfeasible (Or.inl rfl)
    vs0 vp1 idRli pullCfg1 pp0

/-- C2: with a properly set, feasible pull-over target, whenever the ADC
front-edge station minus the target's projected station reaches the
pass-destination threshold, CheckADCPullOver returns PASS_DESTINATION for
every speed, pose and tolerance configuration: the overshoot check is
evaluated first and takes priority over the speed and fine-position
checks. -/
theorem c2_pass_destination_priority (st : PullOverStatusMsg)
    (vs : VehicleState) (vp : VehicleParam) (rli : ReferenceLineInfo)
    (cfg : ScenarioPullOverConfig)
    (hset : pullOverStatusNotSet st = false)
    (hdist : rli.adc_sl_boundary_end_s -
        (rli.reference_line.xyToSL ⟨st.position_x, st.position_y⟩).s ≥
      cfg.pass_destination_threshold) :
    CheckADCPullOver st vs vp rli cfg = PullOverStatus.PASS_DESTINATION := by
  simp [CheckADCPullOver, hset, hdist]

/-- Witness for C2: target at the origin, ADC front edge at station 10,
threshold 5, vehicle at rest exactly on the target pose. -/
theorem c2_pass_destination_witness :
    CheckADCPullOver stGood vs0 vp1 idRli10 pullCfg1 =
      PullOverStatus.PASS_DESTINATION :=
  c2_pass_destination_priority stGood vs0 vp1 idRli10 pullCfg1 rfl
    (by simp [idRli10, idLine, stGood, pullCfg1, PullOverStatusMsg.position_x,
      PullOverStatusMsg.position_y]; norm_num)

/-- C3: with a properly set, feasible target whose overshoot check does not
fire (distance below the pass-destination threshold): if the current speed
exceeds max_abs_speed_when_stopped the result is APPROACHING regardless of
position closeness; and if distance is at most -3 (the fixed
kStartParkCheckRange) the result is APPROACHING as well, without the
curvilinear proximity check being able to influence it (for every speed). -/
theorem c3_approaching_cases (st : PullOverStatusMsg) (vs : VehicleState)
    (vp : VehicleParam) (rli : ReferenceLineInfo)
    (cfg : ScenarioPullOverConfig)
    (hset : pullOverStatusNotSet st = false)
    (hnotpass : rli.adc_sl_boundary_end_s -
        (rli.reference_line.xyToSL ⟨st.position_x, st.position_y⟩).s <
      cfg.pass_destination_threshold) :
    (vs.linear_velocity > vp.max_abs_speed_when_stopped →
      CheckADCPullOver st vs vp rli cfg = PullOverStatus.APPROACHING) ∧
    (rli.adc_sl_boundary_end_s -
        (rli.reference_line.xyToSL ⟨st.position_x, st.position_y⟩).s ≤
        -kStartParkCheckRange →
      CheckADCPullOver st vs vp rli cfg = PullOverStatus.APPROACHING) := by
  have hnp := not_le.mpr hnotpass
  constructor
  · intro hsp
    simp [CheckADCPullOver, hset, hnp, hsp]
  · intro hd
    by_cases hsp : vs.linear_velocity > vp.max_abs_speed_when_stopped
    · simp [CheckADCPullOver, hset, hnp, hsp]
    · simp [CheckADCPullOver, hset, hnp, hsp, hd]

/-- Witness for C3: a moving vehicle at distance 0 is APPROACHING, and a
resting vehicle whose front edge is 4 before the target is APPROACHING. -/
theorem c3_approaching_witness :
    CheckADCPullOver stGood vsFast vp1 idRli pullCfg1 =
        PullOverStatus.APPROACHING ∧
    CheckADCPullOver stGood vs0 vp1 idRliNeg pullCfg1 =
        PullOverStatus.APPROACHING := by
  constructor
  · exact (c3_approaching_cases stGood vsFast vp1 idRli pullCfg1 rfl
      (by norm_num [idRli, idLine, stGood, pullCfg1,
        PullOverStatusMsg.position_x, PullOverStatusMsg.position_y])).1
      (by norm_num [vsFast, vp1])
  · exact (c3_approaching_cases stGood vs0 vp1 idRliNeg pullCfg1 rfl
      (by norm_num [idRliNeg, idLine, stGood, pullCfg1,
        PullOverStatusMsg.position_x, PullOverStatusMsg.position_y])).2
      (by norm_num [idRliNeg, idLine, stGood, kStartParkCheckRange,
        PullOverStatusMsg.position_x, PullOverStatusMsg.position_y])

/-- C4: with a properly set, feasible target, when the overshoot, speed and
far-range checks all fail to fire (distance strictly between
-kStartParkCheckRange and the pass-destination threshold, speed at most the
stopped bound), CheckADCPullOver returns PARK_COMPLETE whenever the lateral
gap, normalized heading gap and forward station gap are within their
bounds, and returns PARK_FAIL as soon as the lateral gap exceeds its bound,
all else fixed. -/
theorem c4_park_complete_or_fail (st : PullOverStatusMsg) (vs : VehicleState)
    (vp : VehicleParam) (rli : ReferenceLineInfo)
    (cfg : ScenarioPullOverConfig)
    (hset : pullOverStatusNotSet st = false)
    (hnotpass : rli.adc_sl_boundary_end_s -
        (rli.reference_line.xyToSL ⟨st.position_x, st.position_y⟩).s <
      cfg.pass_destination_threshold)
    (hspeed : vs.linear_velocity ≤ vp.max_abs_speed_when_stopped)
    (hrange : -kStartParkCheckRange < rli.adc_sl_boundary_end_s -
      (rli.reference_line.xyToSL ⟨st.position_x, st.position_y⟩).s) :
    ((|(rli.reference_line.xyToSL ⟨st.position_x, st.position_y⟩).l -
          (rli.reference_line.xyToSL ⟨vs.x, vs.y⟩).l| ≤
        cfg.max_l_error_to_end_point) →
      (|normalizeAngle (st.theta_val - vs.heading)| ≤
        cfg.max_theta_error_to_end_point) →
      (0 ≤ (rli.reference_line.xyToSL ⟨st.position_x, st.position_y⟩).s -
        (rli.reference_line.xyToSL ⟨vs.x, vs.y⟩).s) →
      ((rli.reference_line.xyToSL ⟨st.position_x, st.position_y⟩).s -
          (rli.reference_line.xyToSL ⟨vs.x, vs.y⟩).s ≤
        cfg.max_s_error_to_end_point) →
      CheckADCPullOver st vs vp rli cfg = PullOverStatus.PARK_COMPLETE) ∧
    ((cfg.max_l_error_to_end_point <
        |(rli.reference_line.xyToSL ⟨st.position_x, st.position_y⟩).l -
          (rli.reference_line.xyToSL ⟨vs.x, vs.y⟩).l|) →
      CheckADCPullOver st vs vp rli cfg = PullOverStatus.PARK_FAIL) := by
  have hnp := not_le.mpr hnotpass
  have hsp := not_lt.mpr hspeed
  have hr := not_le.mpr hrange
  constructor
  · intro h1 h2 h3 h4
    have hsl : CheckPullOverPositionBySL rli cfg ⟨vs.x, vs.y⟩ vs.heading
        ⟨st.position_x, st.position_y⟩ st.theta_val true = true :=
      (checkPullOverPositionBySL_eq_true_iff rli cfg ⟨vs.x, vs.y⟩ vs.heading
        ⟨st.position_x, st.position_y⟩ st.theta_val true).mpr
        ⟨h1, h2, fun _ => ⟨h3, h4⟩⟩
    simp [CheckADCPullOver, hset, hnp, hsp, hr, hsl]
  · intro h1
    have hsl : CheckPullOverPositionBySL rli cfg ⟨vs.x, vs.y⟩ vs.heading
        ⟨st.position_x, st.position_y⟩ st.theta_val true = false :=
      Bool.eq_false_iff.mpr (fun hc =>
        absurd ((checkPullOverPositionBySL_eq_true_iff rli cfg ⟨vs.x, vs.y⟩
          vs.heading ⟨st.position_x, st.position_y⟩ st.theta_val true).mp
            hc).1 (not_le.mpr h1))
    simp [CheckADCPullOver, hset, hnp, hsp, hr, hsl]

/-- Witness for C4: a resting vehicle exactly on the target pose parks
complete; moving the target's lateral offset to 1 (past the 0.5 bound),
all else fixed, yields PARK_FAIL. -/
theorem c4_park_witness :
    CheckADCPullOver stGood vs0 vp1 idRli pullCfg1 =
        PullOverStatus.PARK_COMPLETE ∧
    CheckADCPullOver stGoodY1 vs0 vp1 idRli pullCfg1 =
        PullOverStatus.PARK_FAIL := by
  constructor
  · exact (c4_park_complete_or_fail stGood vs0 vp1 idRli pullCfg1 rfl
      (by norm_num [idRli, idLine, stGood, pullCfg1,
        PullOverStatusMsg.position_x, PullOverStatusMsg.position_y])
      (by norm_num [vs0, vp1])
      (by norm_num [idRli, idLine, stGood, kStartParkCheckRange,
        PullOverStatusMsg.position_x, PullOverStatusMsg.position_y])).1
      (by norm_num [idRli, idLine, stGood, vs0, pullCfg1,
        PullOverStatusMsg.position_x, PullOverStatusMsg.position_y])
      (by norm_num [stGood, vs0, pullCfg1, PullOverStatusMsg.theta_val,
        normalizeAngle_zero])
      (by norm_num [idRli, idLine, stGood, vs0,
        PullOverStatusMsg.position_x, PullOverStatusMsg.position_y])
      (by norm_num [idRli, idLine, stGood, vs0, pullCfg1,
        PullOverStatusMsg.position_x, PullOverStatusMsg.position_y])
  · exact (c4_park_complete_or_fail stGoodY1 vs0 vp1 idRli pullCfg1 rfl
      (by norm_num [idRli, idLine, stGoodY1, pullCfg1,
        PullOverStatusMsg.position_x, PullOverStatusMsg.position_y])
      (by norm_num [vs0, vp1])
      (by norm_num [idRli, idLine, stGoodY1, kStartParkCheckRange,
        PullOverStatusMsg.position_x, PullOverStatusMsg.position_y])).2
      (by norm_num [idRli, idLine, stGoodY1, vs0, pullCfg1,
        PullOverStatusMsg.position_x, PullOverStatusMsg.position_y])

/-- C5: the curvilinear proximity check returns true exactly when the
lateral gap and the normalized heading gap are within their bounds and,
when the station flag is set, the station gap target_s - adc_s is
additionally nonnegative and within its bound; in particular a target
behind the current station (negative station gap) fails with the flag set
even with zero lateral/heading error, while the identical input passes with
the flag clear. -/
theorem c5_sl_check_spec (rli : ReferenceLineInfo)
    (cfg : ScenarioPullOverConfig) (pos : Vec2d) (θa : ℝ) (tpos : Vec2d)
    (θt : ℝ) :
    (∀ cs : Bool, CheckPullOverPositionBySL rli cfg pos θa tpos θt cs = true ↔
      (|(rli.reference_line.xyToSL tpos).l -
          (rli.reference_line.xyToSL pos).l| ≤
        cfg.max_l_error_to_end_point ∧
       |normalizeAngle (θt - θa)| ≤ cfg.max_theta_error_to_end_point ∧
       (cs = true → 0 ≤ (rli.reference_line.xyToSL tpos).s -
            (rli.reference_line.xyToSL pos).s ∧
          (rli.reference_line.xyToSL tpos).s -
              (rli.reference_line.xyToSL pos).s ≤
            cfg.max_s_error_to_end_point))) ∧
    ((rli.reference_line.xyToSL tpos).s -
        (rli.reference_line.xyToSL pos).s < 0 →
      CheckPullOverPositionBySL rli cfg pos θa tpos θt true = false) ∧
    ((rli.reference_line.xyToSL tpos).s -
        (rli.reference_line.xyToSL pos).s < 0 →
      |(rli.reference_line.xyToSL tpos).l -
          (rli.reference_line.xyToSL pos).l| ≤
        cfg.max_l_error_to_end_point →
      |normalizeAngle (θt - θa)| ≤ cfg.max_theta_error_to_end_point →
      CheckPullOverPositionBySL rli cfg pos θa tpos θt false = true) := by
  refine ⟨fun cs => checkPullOverPositionBySL_eq_true_iff rli cfg pos θa
    tpos θt cs, fun hs => ?_, fun hs hl ht => ?_⟩
  · exact Bool.eq_false_iff.mpr (fun hc =>
      absurd (((checkPullOverPositionBySL_eq_true_iff rli cfg pos θa tpos θt
        true).mp hc).2.2 rfl).1 (not_le.mpr hs))
  · exact (checkPullOverPositionBySL_eq_true_iff rli cfg pos θa tpos θt
      false).mpr ⟨hl, ht, fun hct => absurd hct (by simp)⟩

/-- Witness for C5: under the identity projection, current position at
station 1, target at station 0 (station gap -1) with zero lateral and
heading error: the station-checked call fails, the unchecked call passes. -/
theorem c5_sl_check_witness :
    CheckPullOverPositionBySL idRli pullCfg1 ⟨1, 0⟩ 0 ⟨0, 0⟩ 0 true = false ∧
    CheckPullOverPositionBySL idRli pullCfg1 ⟨1, 0⟩ 0 ⟨0, 0⟩ 0 false = true := by
  constructor
  · exact (c5_sl_check_spec idRli pullCfg1 ⟨1, 0⟩ 0 ⟨0, 0⟩ 0).2.1
      (by norm_num [idRli, idLine])
  · exact (c5_sl_check_spec idRli pullCfg1 ⟨1, 0⟩ 0 ⟨0, 0⟩ 0).2.2
      (by norm_num [idRli, idLine])
      (by norm_num [idRli, idLine, pullCfg1])
      (by norm_num [pullCfg1, normalizeAngle_zero])

/-- C6 counterexample: the claim asserts that CheckADCParkAndGoCruiseCompleted
also compares a normalized heading difference, making its verdict invariant
under shifting a heading by 2*pi.  In the code that function compares the
raw difference: a vehicle exactly on the reference line with heading 0 is
classified CRUISE_COMPLETE, but the same vehicle with the equivalent
heading 2*pi is classified CRUISING. -/
theorem c6_counterexample :
    CheckADCParkAndGoCruiseCompleted vs0 idRli parkCfg1 =
        ParkAndGoStatus.CRUISE_COMPLETE ∧
    CheckADCParkAndGoCruiseCompleted vs2pi idRli parkCfg1 =
        ParkAndGoStatus.CRUISING := by
  constructor
  · rw [parkAndGoCruiseCompleted_eq_complete_iff]
    simp only [idRli, idLine, vs0]
    norm_num
  · have hne : CheckADCParkAndGoCruiseCompleted vs2pi idRli parkCfg1 ≠
        ParkAndGoStatus.CRUISE_COMPLETE := by
      rw [Ne, parkAndGoCruiseCompleted_eq_complete_iff]
      simp only [idRli, idLine, vs2pi]
      intro hcon
      have h2pi : |2 * π - 0| ≥ 0.1 := by
        rw [sub_zero, abs_of_pos Real.two_pi_pos]
        nlinarith [Real.pi_gt_three]
      exact absurd hcon.2 (not_lt.mpr h2pi)
    cases hres : CheckADCParkAndGoCruiseCompleted vs2pi idRli parkCfg1
    · rfl
    · exact absurd hres hne

/-- C6 (amended): the heading comparisons in CheckPullOverPositionBySL,
CheckPullOverPositionByDistance and CheckADCHeading all compare the
absolute normalized angle difference against their bound, so their verdict
is unchanged when either heading is shifted by 2*pi;
CheckADCParkAndGoCruiseCompleted instead compares the raw difference
between the vehicle heading and the reference heading at the projected
station, and is not invariant under such shifts. -/
theorem c6_normalized_heading_checks (rli : ReferenceLineInfo)
    (cfg : ScenarioPullOverConfig) (pos : Vec2d) (θa : ℝ) (tpos : Vec2d)
    (θt : ℝ) (cs : Bool) (hd : ℝ) (vs : VehicleState)
    (pcfg : ScenarioParkAndGoConfig) :
    (CheckPullOverPositionBySL rli cfg pos (θa + 2 * π) tpos θt cs =
      CheckPullOverPositionBySL rli cfg pos θa tpos θt cs) ∧
    (CheckPullOverPositionBySL rli cfg pos θa tpos (θt + 2 * π) cs =
      CheckPullOverPositionBySL rli cfg pos θa tpos θt cs) ∧
    (CheckPullOverPositionByDistance cfg pos (θa + 2 * π) tpos θt =
      CheckPullOverPositionByDistance cfg pos θa tpos θt) ∧
    (CheckPullOverPositionByDistance cfg pos θa tpos (θt + 2 * π) =
      CheckPullOverPositionByDistance cfg pos θa tpos θt) ∧
    (CheckADCHeading pos (θa + 2 * π) rli hd =
      CheckADCHeading pos θa rli hd) ∧
    (CheckADCParkAndGoCruiseCompleted vs rli pcfg =
        ParkAndGoStatus.CRUISE_COMPLETE ↔
      (|(rli.reference_line.xyToSL ⟨vs.x, vs.y⟩).l| < 0.5 ∧
        |vs.heading -
            rli.reference_line.refTheta
              ((rli.reference_line.xyToSL ⟨vs.x, vs.y⟩).s)| < 0.1)) := by
  have hsub : ∀ a b : ℝ, normalizeAngle (a - (b + 2 * π)) =
      normalizeAngle (a - b) := by
    intro a b
    have : a - (b + 2 * π) = (a - b) - 2 * π := by ring
    rw [this, normalizeAngle_sub_two_pi]
  have hadd : ∀ a b : ℝ, normalizeAngle ((a + 2 * π) - b) =
      normalizeAngle (a - b) := by
    intro a b
    have : (a + 2 * π) - b = (a - b) + 2 * π := by ring
    rw [this, normalizeAngle_add_two_pi]
  refine ⟨?_, ?_, ?_, ?_, ?_,
    parkAndGoCruiseCompleted_eq_complete_iff vs rli pcfg⟩
  · simp only [CheckPullOverPositionBySL, hsub]
  · simp only [CheckPullOverPositionBySL, hadd]
  · simp only [CheckPullOverPositionByDistance, hsub]
  · simp only [CheckPullOverPositionByDistance, hadd]
  · simp only [CheckADCHeading, hadd]

/-- C7: CheckADCParkAndGoCruiseCompleted returns CRUISE_COMPLETE exactly
when the absolute lateral offset is strictly below 0.5 and the absolute
heading difference to the reference heading at the projected station is
strictly below 0.1, and returns CRUISING exactly otherwise; in particular
offsets 0.4999 and 0.0999 complete the cruise, while either value at its
bound (0.5 or 0.1) yields CRUISING. -/
theorem c7_cruise_complete_iff :
    (∀ (vs : VehicleState) (rli : ReferenceLineInfo)
        (pcfg : ScenarioParkAndGoConfig),
      (CheckADCParkAndGoCruiseCompleted vs rli pcfg =
          ParkAndGoStatus.CRUISE_COMPLETE ↔
        (|(rli.reference_line.xyToSL ⟨vs.x, vs.y⟩).l| < 0.5 ∧
          |vs.heading -
              rli.reference_line.refTheta
                ((rli.reference_line.xyToSL ⟨vs.x, vs.y⟩).s)| < 0.1)) ∧
      (CheckADCParkAndGoCruiseCompleted vs rli pcfg =
          ParkAndGoStatus.CRUISING ↔
        ¬(|(rli.reference_line.xyToSL ⟨vs.x, vs.y⟩).l| < 0.5 ∧
          |vs.heading -
              rli.reference_line.refTheta
                ((rli.reference_line.xyToSL ⟨vs.x, vs.y⟩).s)| < 0.1))) ∧
    CheckADCParkAndGoCruiseCompleted ⟨0, 0.4999, 0.0999, 0⟩ idRli parkCfg1 =
      ParkAndGoStatus.CRUISE_COMPLETE ∧
    CheckADCParkAndGoCruiseCompleted ⟨0, 0.5, 0.0999, 0⟩ idRli parkCfg1 =
      ParkAndGoStatus.CRUISING ∧
    CheckADCParkAndGoCruiseCompleted ⟨0, 0.4999, 0.1, 0⟩ idRli parkCfg1 =
      ParkAndGoStatus.CRUISING := by
  have hmain : ∀ (vs : VehicleState) (rli : ReferenceLineInfo)
      (pcfg : ScenarioParkAndGoConfig),
      (CheckADCParkAndGoCruiseCompleted vs rli pcfg =
          ParkAndGoStatus.CRUISE_COMPLETE ↔
        (|(rli.reference_line.xyToSL ⟨vs.x, vs.y⟩).l| < 0.5 ∧
          |vs.heading -
              rli.reference_line.refTheta
                ((rli.reference_line.xyToSL ⟨vs.x, vs.y⟩).s)| < 0.1)) :=
    parkAndGoCruiseCompleted_eq_complete_iff
  have hcruising : ∀ (vs : VehicleState) (rli : ReferenceLineInfo)
      (pcfg : ScenarioParkAndGoConfig),
      (CheckADCParkAndGoCruiseCompleted vs rli pcfg =
          ParkAndGoStatus.CRUISING ↔
        ¬(|(rli.reference_line.xyToSL ⟨vs.x, vs.y⟩).l| < 0.5 ∧
          |vs.heading -
              rli.reference_line.refTheta
                ((rli.reference_line.xyToSL ⟨vs.x, vs.y⟩).s)| < 0.1)) := by
    intro vs rli pcfg
    rw [← hmain vs rli pcfg]
    cases hres : CheckADCParkAndGoCruiseCompleted vs rli pcfg <;> simp
  refine ⟨fun vs rli pcfg => ⟨hmain vs rli pcfg, hcruising vs rli pcfg⟩,
    ?_, ?_, ?_⟩
  · rw [hmain]
    simp only [idRli, idLine]
    rw [show |(0.4999 : ℝ)| = 0.4999 from abs_of_nonneg (by norm_num),
      show ((0.0999 : ℝ) - 0) = 0.0999 from by norm_num,
      show |(0.0999 : ℝ)| = 0.0999 from abs_of_nonneg (by norm_num)]
    norm_num
  · rw [hcruising]
    simp only [idRli, idLine]
    rw [show |(0.5 : ℝ)| = 0.5 from abs_of_nonneg (by norm_num)]
    norm_num
  · rw [hcruising]
    simp only [idRli, idLine]
    rw [show ((0.1 : ℝ) - 0) = 0.1 from by norm_num,
      show |(0.1 : ℝ)| = 0.1 from abs_of_nonneg (by norm_num)]
    norm_num

/-- C8: the readiness gate is true exactly when no obstacle's perception
polygon overlaps the vehicle box shifted forward along the heading by
front_obstacle_buffer + back_edge_to_center, and the heading is aligned
with the front reference line within heading_buffer; in particular any
single overlapping obstacle forces the gate false even with aligned
heading, and with the obstacle list emptied and aligned heading the gate
is true. -/
theorem c8_ready_to_cruise_spec {P : Type} (geom : GeomOracle P)
    (vs : VehicleState) (vp : VehicleParam) (frame : Frame P)
    (cfg : ScenarioParkAndGoConfig) :
    (CheckADCReadyToCruise geom vs vp frame cfg = true ↔
      ((∀ ob ∈ frame.obstacles,
          geom.hasOverlap
            (adcShiftedPolygon geom ⟨vs.x, vs.y⟩ vs.heading
              cfg.front_obstacle_buffer vp) ob.perception_polygon = false) ∧
        |normalizeAngle (vs.heading -
            (frame.reference_line_info.headI).reference_line.refTheta
              (((frame.reference_line_info.headI).reference_line.xyToSL
                ⟨vs.x, vs.y⟩).s))| < cfg.heading_buffer)) ∧
    (∀ ob ∈ frame.obstacles,
      geom.hasOverlap
          (adcShiftedPolygon geom ⟨vs.x, vs.y⟩ vs.heading
            cfg.front_obstacle_buffer vp) ob.perception_polygon = true →
      CheckADCReadyToCruise geom vs vp frame cfg = false) ∧
    (frame.obstacles = [] →
      |normalizeAngle (vs.heading -
          (frame.reference_line_info.headI).reference_line.refTheta
            (((frame.reference_line_info.headI).reference_line.xyToSL
              ⟨vs.x, vs.y⟩).s))| < cfg.heading_buffer →
      CheckADCReadyToCruise geom vs vp frame cfg = true) := by
  have hchar : CheckADCReadyToCruise geom vs vp frame cfg = true ↔
      (CheckADCSurroundObstacles geom ⟨vs.x, vs.y⟩ vs.heading frame
          cfg.front_obstacle_buffer vp = false ∧
        CheckADCHeading ⟨vs.x, vs.y⟩ vs.heading
          frame.reference_line_info.headI cfg.heading_buffer = true) := by
    simp [CheckADCReadyToCruise, Bool.not_eq_true']
  have hobs : CheckADCSurroundObstacles geom ⟨vs.x, vs.y⟩ vs.heading frame
      cfg.front_obstacle_buffer vp = false ↔
      ∀ ob ∈ frame.obstacles,
        geom.hasOverlap
          (adcShiftedPolygon geom ⟨vs.x, vs.y⟩ vs.heading
            cfg.front_obstacle_buffer vp) ob.perception_polygon = false := by
    rw [checkADCSurroundObstacles_eq_any]
    simp [List.any_eq_true]
  have hiff : CheckADCReadyToCruise geom vs vp frame cfg = true ↔
      ((∀ ob ∈ frame.obstacles,
          geom.hasOverlap
            (adcShiftedPolygon geom ⟨vs.x, vs.y⟩ vs.heading
              cfg.front_obstacle_buffer vp) ob.perception_polygon = false) ∧
        |normalizeAngle (vs.heading -
            (frame.reference_line_info.headI).reference_line.refTheta
              (((frame.reference_line_info.headI).reference_line.xyToSL
                ⟨vs.x, vs.y⟩).s))| < cfg.heading_buffer) := by
    rw [hchar, hobs, checkADCHeading_eq_true_iff]
  refine ⟨hiff, fun ob hmem hover => ?_, fun hempty halign => ?_⟩
  · refine Bool.eq_false_iff.mpr (fun hc => ?_)
    have := ((hiff.mp hc).1 ob hmem)
    rw [hover] at this
    exact absurd this (by simp)
  · exact hiff.mpr ⟨by simp [hempty], halign⟩

/-- Witness for C8, over Bool polygons with an always-overlapping obstacle:
with the obstacle present the gate is false despite perfectly aligned
heading; with it removed and the heading identical the gate is true. -/
theorem c8_ready_to_cruise_witness :
    CheckADCReadyToCruise geomB vs0 vp1 frameHit parkCfg1 = false ∧
    CheckADCReadyToCruise geomB vs0 vp1 frameClear parkCfg1 = true := by
  constructor
  · exact (c8_ready_to_cruise_spec geomB vs0 vp1 frameHit parkCfg1).2.1
      ⟨true⟩ (by simp [frameHit]) (by simp [geomB, frameHit])
  · exact (c8_ready_to_cruise_spec geomB vs0 vp1 frameClear parkCfg1).2.2
      rfl
      (by norm_num [frameClear, idRli, idLine, vs0, parkCfg1,
        normalizeAngle_zero])

/-- C9: for each of the four handled overlap kinds, the lookup scans only
that kind's list and returns the first interval in it whose object id
equals the requested id; when that list has no matching interval it returns
none, even if an interval with that id exists in a different kind's list
(the result depends on no other list). -/
theorem c9_overlap_lookup_per_kind (rli : ReferenceLineInfo) (id : String) :
    (GetOverlapOnReferenceLine rli id OverlapType.SIGNAL =
      rli.reference_line.signal_overlaps.find?
        (fun o => o.object_id == id)) ∧
    (GetOverlapOnReferenceLine rli id OverlapType.STOP_SIGN =
      rli.reference_line.stop_sign_overlaps.find?
        (fun o => o.object_id == id)) ∧
    (GetOverlapOnReferenceLine rli id OverlapType.PNC_JUNCTION =
      rli.reference_line.pnc_junction_overlaps.find?
        (fun o => o.object_id == id)) ∧
    (GetOverlapOnReferenceLine rli id OverlapType.YIELD_SIGN =
      rli.reference_line.yield_sign_overlaps.find?
        (fun o => o.object_id == id)) ∧
    ((∀ o ∈ rli.reference_line.signal_overlaps, o.object_id ≠ id) →
      GetOverlapOnReferenceLine rli id OverlapType.SIGNAL = none) := by
  refine ⟨rfl, rfl, rfl, rfl, fun h => ?_⟩
  show rli.reference_line.signal_overlaps.find?
    (fun o => o.object_id == id) = none
  rw [List.find?_eq_none]
  intro o ho
  simpa using h o ho

/-- Witness for C9: the id A lives only in the stop-sign list: querying it
under SIGNAL returns none, querying it under STOP_SIGN finds it. -/
theorem c9_overlap_lookup_witness :
    GetOverlapOnReferenceLine rliStopA "A" OverlapType.SIGNAL = none ∧
    GetOverlapOnReferenceLine rliStopA "A" OverlapType.STOP_SIGN =
      some ⟨"A", 0, 1⟩ := by
  constructor
  · exact (c9_overlap_lookup_per_kind rliStopA "A").2.2.2.2
      (by simp [rliStopA])
  · rw [(c9_overlap_lookup_per_kind rliStopA "A").2.1]
    rfl

/-- C10: for every overlap type other than the four handled kinds, the
lookup returns none for every id and every reference line: there is no
default branch that searches other lists. -/
theorem c10_overlap_lookup_unhandled_kind (t : OverlapType)
    (h1 : t ≠ OverlapType.SIGNAL) (h2 : t ≠ OverlapType.STOP_SIGN)
    (h3 : t ≠ OverlapType.PNC_JUNCTION) (h4 : t ≠ OverlapType.YIELD_SIGN)
    (rli : ReferenceLineInfo) (id : String) :
    GetOverlapOnReferenceLine rli id t = none := by
  simp [GetOverlapOnReferenceLine, h1, h2, h3, h4]

/-- Witness for C10: querying CLEAR_AREA on a reference line all of whose
lists contain the id still returns none. -/
theorem c10_overlap_lookup_unhandled_witness :
    GetOverlapOnReferenceLine rliAllA "A" OverlapType.CLEAR_AREA = none :=
  c10_overlap_lookup_unhandled_kind OverlapType.CLEAR_AREA
    (by decide) (by decide) (by decide) (by decide) rliAllA "A"

end Claims

